import Mathlib

/-!
Shallow embedding of the `keywrap` terminal-session supervisor
(`src/main.go` and the unnamed variant `src/unnamed/part_000`).

Go strings are byte sequences; we model them as `List Nat` (`GoStr`).
The Go `map[string]Action` built by `formatKeymap` is modelled as an
association list with overwrite-on-insert, matching Go map assignment.
Go's `panic` inside `formatKeymap` aborts the whole compilation, so the
compiler is modelled in `Except GoStr`.
The input-reader goroutine, the event loop's per-event behaviour and the
`stopChild` closure are pure per-step functions over explicit state;
channels become the values received, and side effects (bytes written to
the PTY master, actions enqueued, signals sent, commands run) become
fields of a result record.
-/

namespace Keywrap

/-- A Go string: a sequence of bytes. -/
abbrev GoStr := List Nat

/-- Bytes of an ASCII Lean string literal, as the corresponding Go string. -/
def bytes (s : String) : GoStr := s.data.map Char.toNat

/-- `type Action struct { Type ActionType; Arg string }` (identical in both
source files). `ActionType` is a Go string type, so `type` is a `GoStr`;
the Go zero value of `Action` has both fields empty. -/
structure Action where
  type : GoStr
  arg : GoStr
deriving DecidableEq, Repr

/-- `ActionTypeExit = "exit"`. -/
def actionTypeExit : GoStr := bytes ("exit")

/-- `ActionTypeBecome = "become"`. -/
def actionTypeBecome : GoStr := bytes ("become")

/-- `ActionTypeExecute = "execute"`. -/
def actionTypeExecute : GoStr := bytes ("execute")

/-- The Go zero value `Action{}`: empty type tag, empty argument. -/
def zeroAction : Action := ⟨[], []⟩

/-- The compiled keymap `map[string]Action`, as an association list from
raw byte sequences to actions. -/
abbrev Keymap := List (GoStr × Action)

/-- Go map assignment `m[k] = a`: overwrite the existing entry for `k`,
or append a new one. -/
def insertK : Keymap → GoStr → Action → Keymap
  | [], k, a => [(k, a)]
  | (k', a') :: rest, k, a =>
    if k' = k then (k, a) :: rest else (k', a') :: insertK rest k a

/-- Go map lookup `action, ok := m[k]`. -/
def lookupK : Keymap → GoStr → Option Action
  | [], _ => none
  | (k', a') :: rest, k => if k' = k then some a' else lookupK rest k

/-- Decimal digit bytes of `n`, as produced by `fmt.Sprintf("%d", n)`. -/
def decDigits (n : Nat) : GoStr := (Nat.toDigits 10 n).map Char.toNat

/-- `fmt.Sprintf("\x1b[%d;5u", code)`: the CSI-u byte sequence
`ESC [ <decimal code> ; 5 u`. -/
def csiU (code : Nat) : GoStr := 27 :: 91 :: (decDigits code ++ [59, 53, 117])

/-- The action-spec parsing chain at the top of `formatKeymap`
(src/main.go lines 256-271): `"exit"`, `"become(<s>)"`, `"execute(<s>)"`;
any other spec leaves `action` at its Go zero value. The Go slice
`v[low:len(v)-1]` panics with a runtime slice-bounds error when
`low > len(v)-1`, which under the `HasPrefix` guard happens exactly when
`v` is the bare prefix (`"become("` / `"execute("`); that panic is
modelled as `Except.error`. When the slice is in range it equals
`(v.drop low).dropLast`. -/
def parseActionSpec (v : GoStr) : Except GoStr Action :=
  if v = bytes ("exit") then .ok { type := actionTypeExit, arg := [] }
  else if (bytes ("become(")).isPrefixOf v then
    if 7 ≤ v.length - 1 then
      .ok { type := actionTypeBecome, arg := (v.drop 7).dropLast }
    else .error (bytes ("slice bounds out of range"))
  else if (bytes ("execute(")).isPrefixOf v then
    if 8 ≤ v.length - 1 then
      .ok { type := actionTypeExecute, arg := (v.drop 8).dropLast }
    else .error (bytes ("slice bounds out of range"))
  else .ok zeroAction

/-- The key-literal switch of `formatKeymap` (src/main.go lines 273-288):
a single byte is used as-is; `ctrl-<c>` registers the CSI-u sequence for
`c`'s byte and (for lowercase letters) the classical control byte
`c - 'a' + 1`; `enter` and `tab` map to `\n` and `\t`; anything else
panics with `"unknown key: " + k`. -/
def compileKeyLiteral (m : Keymap) (k : GoStr) (action : Action) :
    Except GoStr Keymap :=
  if k.length = 1 then .ok (insertK m k action)
  else if (bytes ("ctrl-")).isPrefixOf k ∧ (k.drop 5).length = 1 then
    let code := k.getD 5 0
    let m1 := insertK m (csiU code) action
    .ok (if 97 ≤ code ∧ code ≤ 122 then insertK m1 [code - 97 + 1] action else m1)
  else if k = bytes ("enter") then .ok (insertK m [10] action)
  else if k = bytes ("tab") then .ok (insertK m [9] action)
  else .error (bytes ("unknown key: ") ++ k)

/-- The loop body of `formatKeymap` over the (listed) entries of the input
`map[string]string`. Go map iteration order is unspecified; the input is
modelled as a list iterated front to back. A panic (slice bounds in the
action-spec chain, or `unknown key` in the key switch) aborts the whole
call, hence `Except`; the action-spec chain runs before the key switch,
as in the source. -/
def formatKeymapAux : List (GoStr × GoStr) → Keymap → Except GoStr Keymap
  | [], m => .ok m
  | (k, v) :: rest, m =>
    match parseActionSpec v with
    | .error e => .error e
    | .ok action =>
      match compileKeyLiteral m k action with
      | .ok m' => formatKeymapAux rest m'
      | .error e => .error e

/-- `formatKeymap` of src/main.go (lines 253-291). -/
def formatKeymap (km : List (GoStr × GoStr)) : Except GoStr Keymap :=
  formatKeymapAux km []

namespace Part000

/-- The action-spec parsing chain of `formatKeymap` in
src/unnamed/part_000 (lines 236-251), textually identical to the one in
src/main.go; the slice-bounds panic on a bare `"become("` / `"execute("`
spec is modelled as `Except.error` in the same way. -/
def parseActionSpec (v : GoStr) : Except GoStr Action :=
  if v = bytes ("exit") then .ok { type := actionTypeExit, arg := [] }
  else if (bytes ("become(")).isPrefixOf v then
    if 7 ≤ v.length - 1 then
      .ok { type := actionTypeBecome, arg := (v.drop 7).dropLast }
    else .error (bytes ("slice bounds out of range"))
  else if (bytes ("execute(")).isPrefixOf v then
    if 8 ≤ v.length - 1 then
      .ok { type := actionTypeExecute, arg := (v.drop 8).dropLast }
    else .error (bytes ("slice bounds out of range"))
  else .ok zeroAction

/-- The key-literal switch of `formatKeymap` in src/unnamed/part_000
(lines 253-268), textually identical to the one in src/main.go. -/
def compileKeyLiteral (m : Keymap) (k : GoStr) (action : Action) :
    Except GoStr Keymap :=
  if k.length = 1 then .ok (insertK m k action)
  else if (bytes ("ctrl-")).isPrefixOf k ∧ (k.drop 5).length = 1 then
    let code := k.getD 5 0
    let m1 := insertK m (csiU code) action
    .ok (if 97 ≤ code ∧ code ≤ 122 then insertK m1 [code - 97 + 1] action else m1)
  else if k = bytes ("enter") then .ok (insertK m [10] action)
  else if k = bytes ("tab") then .ok (insertK m [9] action)
  else .error (bytes ("unknown key: ") ++ k)

/-- The loop body of `formatKeymap` in src/unnamed/part_000. -/
def formatKeymapAux : List (GoStr × GoStr) → Keymap → Except GoStr Keymap
  | [], m => .ok m
  | (k, v) :: rest, m =>
    match parseActionSpec v with
    | .error e => .error e
    | .ok action =>
      match compileKeyLiteral m k action with
      | .ok m' => formatKeymapAux rest m'
      | .error e => .error e

/-- `formatKeymap` of src/unnamed/part_000 (lines 233-271). -/
def formatKeymap (km : List (GoStr × GoStr)) : Except GoStr Keymap :=
  formatKeymapAux km []

end Part000

/-- Observable effects of one iteration of the input-reader goroutine
(src/main.go lines 139-160, identical in src/unnamed/part_000 lines
121-142) after a successful `tty.Read` returning `received`. -/
structure ReaderOutput where
  /-- the debug branch logged the keystroke instead of acting -/
  logged : Bool
  /-- actions sent to `actionChan`, in order -/
  enqueued : List Action
  /-- bytes written to the PTY master `ptmx` -/
  written : GoStr
deriving DecidableEq, Repr

/-- One iteration of the input-reader goroutine. `childExited` models
`childExitChan == nil` (the event loop sets the channel variable to nil
once the child's exit has been observed). -/
def readerStep (keymap : Keymap) (isDebug : Bool) (childExited : Bool)
    (received : GoStr) : ReaderOutput :=
  if isDebug then ⟨true, [], []⟩
  else match lookupK keymap received with
    | some action => ⟨false, [action], []⟩
    | none =>
      if childExited then ⟨false, [{ type := actionTypeExit, arg := [] }], []⟩
      else ⟨false, [], received⟩

/-- Result of the `stopChild` closure (src/main.go lines 175-200,
identical in src/unnamed/part_000 lines 157-182). -/
structure StopResult where
  /-- signals sent to the child, in order -/
  signals : List GoStr
  /-- whether the closure blocked in its wait loop -/
  waited : Bool
  /-- liveness flag (`childExitChan == nil`) after the call returns -/
  childExited : Bool
deriving DecidableEq, Repr

/-- The `for { select { ... } }` wait loop of `stopChild`:
`timeouts` counts how many 2-second timeouts fire before the
`childExitChan` receive; each timeout sends SIGKILL, the receive sets the
channel to nil and returns. -/
def stopWait : Nat → List GoStr → StopResult
  | 0, sigs => ⟨sigs, true, true⟩
  | n + 1, sigs => stopWait n (sigs ++ [bytes ("SIGKILL")])

/-- The `stopChild` closure: a no-op when `childExitChan == nil`
(child exit already observed); otherwise it sends SIGTERM and enters the
escalation wait loop. -/
def stopChild (childExited : Bool) (timeouts : Nat) : StopResult :=
  if childExited then ⟨[], false, childExited⟩
  else stopWait timeouts [bytes ("SIGTERM")]

/-- `strings.ReplaceAll(s, old, new)` for non-empty `old` (the only call
sites use the fixed literal `"__stdin_file__"`). -/
def replaceAll (s old new : GoStr) : GoStr :=
  match s with
  | [] => []
  | c :: rest =>
    if h : old ≠ [] ∧ old.isPrefixOf (c :: rest) then
      new ++ replaceAll ((c :: rest).drop old.length) old new
    else
      c :: replaceAll rest old new
termination_by s.length
decreasing_by
  · simp only [List.length_drop, List.length_cons]
    have hne : old.length ≠ 0 := by
      intro h0
      exact h.1 (List.eq_nil_of_length_eq_zero h0)
    omega
  · simp

/-- An event received by the `select` of the main event loop
(src/main.go lines 202-237). -/
inductive Event
  /-- receive on `childExitChan`; `err` is the child's `Wait` error,
  `none` meaning clean exit -/
  | childExit (err : Option GoStr)
  /-- receive on `sigWinchChan` -/
  | sigwinch
  /-- receive on `actionChan` -/
  | action (a : Action)
deriving DecidableEq, Repr

/-- Observable outcome of one iteration of the main event loop. -/
structure StepResult where
  /-- liveness flag (`childExitChan == nil`) after the iteration -/
  childExited : Bool
  /-- `some c`: the loop returned, making `c` the supervisor's exit code -/
  returnCode : Option Nat := none
  /-- `pty.InheritSize` was invoked -/
  resized : Bool := false
  /-- the process image was replaced by `bash -c <cmd>` via `execSyscall` -/
  execReplaced : Option GoStr := none
  /-- `bash -c <cmd>` was spawned and awaited (`Execute`) -/
  executedCmd : Option GoStr := none
  /-- signals sent to the child by `stopChild` during this iteration -/
  signalsSent : List GoStr := []
  /-- `log.Printf("Command finished with error: ...")` fired -/
  loggedError : Bool := false
deriving DecidableEq, Repr

/-- One iteration of the main event loop of src/main.go (lines 202-237).
`hold` is `flag.Hold`; `stdinName` is `stdinFile.Name()` (substituted for
`"__stdin_file__"` in Become/Execute arguments); `childExited` is the
current liveness flag and `timeouts` parametrises `stopChild`'s wait
loop. The `switch action.Type` has no default case, so an action whose
type tag matches none of the three constants does nothing. -/
def loopStep (hold : Bool) (stdinName : GoStr) (childExited : Bool)
    (timeouts : Nat) : Event → StepResult
  | .childExit err =>
    { childExited := true
      returnCode := if hold then none else some 0
      loggedError := err.isSome }
  | .sigwinch => { childExited := childExited, resized := true }
  | .action a =>
    if a.type = actionTypeExit then
      let r := stopChild childExited timeouts
      { childExited := r.childExited
        returnCode := some 0
        signalsSent := r.signals }
    else if a.type = actionTypeBecome then
      let r := stopChild childExited timeouts
      { childExited := r.childExited
        execReplaced := some (replaceAll a.arg (bytes ("__stdin_file__")) stdinName)
        signalsSent := r.signals }
    else if a.type = actionTypeExecute then
      { childExited := childExited
        executedCmd := some (replaceAll a.arg (bytes ("__stdin_file__")) stdinName) }
    else
      { childExited := childExited }

/-- `func main()` of src/unnamed/part_000 (lines 285-290): the process
exit status equals `mainWithReturn`'s return value (`os.Exit(code)` when
non-zero, implicit exit 0 otherwise). -/
def mainExitStatus (code : Nat) : Nat := if code ≠ 0 then code else 0

/-- The ways control can leave `main` of src/main.go once raw mode has
been entered (line 116). Go runs deferred calls when the surrounding
function returns or panics; a successful `syscall.Exec` replaces the
process image, so no deferred call runs after it. -/
inductive PostRawExit
  /-- `return` from `main`: child exited without `--hold` (line 210) or
  the Exit action (line 222) -/
  | normalReturn
  /-- a panic after raw mode entry (fatal-error abort): deferred calls
  run during unwinding -/
  | panicAbort
  /-- the Become action reached `syscall.Exec` (line 299);
  `execSucceeded` tells whether the image replacement succeeded
  (on failure `execSyscall` panics, line 301) -/
  | becomeExec (execSucceeded : Bool)
deriving DecidableEq, Repr

/-- Terminal-mode events on a given exit path. -/
inductive TermEvent
  /-- `term.MakeRaw` succeeded (src/main.go line 116) -/
  | madeRaw
  /-- the deferred `term.Restore` ran (src/main.go line 120) -/
  | restored
  /-- `syscall.Exec` replaced the process image (src/main.go line 299) -/
  | imageReplaced
deriving DecidableEq, Repr

/-- The sequence of terminal-mode events on each exit path of `main`
after raw mode entry. On `return` and on panic the deferred
`term.Restore` runs; a successful `syscall.Exec` replaces the image
without running deferred calls, and a failed one makes `execSyscall`
panic, which unwinds through `main` and runs the deferred restore. -/
def terminalEvents : PostRawExit → List TermEvent
  | .normalReturn => [.madeRaw, .restored]
  | .panicAbort => [.madeRaw, .restored]
  | .becomeExec true => [.madeRaw, .imageReplaced]
  | .becomeExec false => [.madeRaw, .restored]

/-! ## Theorems -/

/-- Sanity check: `ctrl-a`'s CSI-u sequence is `ESC [ 9 7 ; 5 u`. -/
theorem csiU_97 : csiU 97 = [27, 91, 57, 55, 59, 53, 117] := by decide

/-- C1: when debug mode is off and the child is still running, an input
read whose bytes are bound in the compiled keymap enqueues exactly one
copy of the bound action on `actionChan` and writes no bytes to the PTY
master. -/
theorem reader_mapped_enqueues_once (m : Keymap) (received : GoStr) (a : Action)
    (h : lookupK m received = some a) :
    readerStep m false false received = ⟨false, [a], []⟩ := by
  simp [readerStep, h]

/-- C1 witness: keymap `{"q": "exit"}` compiled, byte `q` received. -/
theorem reader_mapped_enqueues_once_witness :
    readerStep [([113], { type := actionTypeExit, arg := [] })] false false [113] =
      ⟨false, [{ type := actionTypeExit, arg := [] }], []⟩ :=
  reader_mapped_enqueues_once _ _ _ (by decide)

/-- C2: when debug mode is off and the child is still running, an input
read with no keymap entry is written unmodified to the PTY master and no
action is enqueued. -/
theorem reader_unmapped_forwards (m : Keymap) (received : GoStr)
    (h : lookupK m received = none) :
    readerStep m false false received = ⟨false, [], received⟩ := by
  simp [readerStep, h]

/-- C2 witness: empty keymap, byte `x` received while the child runs. -/
theorem reader_unmapped_forwards_witness :
    readerStep [] false false [120] = ⟨false, [], [120]⟩ :=
  reader_unmapped_forwards [] [120] (by decide)

/-- C6: after the child's exit has been observed (`childExitChan == nil`,
the `Holding` state of hold mode), an input read with no keymap entry
enqueues exactly one Exit action and writes no bytes to the PTY master. -/
theorem reader_unmapped_after_exit (m : Keymap) (received : GoStr)
    (h : lookupK m received = none) :
    readerStep m false true received =
      ⟨false, [{ type := actionTypeExit, arg := [] }], []⟩ := by
  simp [readerStep, h]

/-- C6 witness: empty keymap, byte `x` received after child exit. -/
theorem reader_unmapped_after_exit_witness :
    readerStep [] false true [120] =
      ⟨false, [{ type := actionTypeExit, arg := [] }], []⟩ :=
  reader_unmapped_after_exit [] [120] (by decide)

/-- C8: `stopChild` when the child's exit has already been observed is a
no-op: it sends no signal, does not enter its wait loop, and leaves the
liveness flag unchanged, whatever the escalation schedule would be. -/
theorem stopChild_noop_after_exit (timeouts : Nat) :
    stopChild true timeouts =
      { signals := [], waited := false, childExited := true } := rfl

/-- C7: compiling `ctrl-a` bound to an action-spec that parses to an
action registers exactly two entries, the CSI-u sequence
`ESC [ 9 7 ; 5 u` and the control byte `\x01`, and looking up either
returns the identical action value. -/
theorem ctrl_a_two_entries (v : GoStr) (a : Action)
    (h : parseActionSpec v = Except.ok a) :
    formatKeymap [(bytes ("ctrl-a"), v)] =
      Except.ok [([27, 91, 57, 55, 59, 53, 117], a), ([1], a)] ∧
    lookupK [([27, 91, 57, 55, 59, 53, 117], a), ([1], a)]
      [27, 91, 57, 55, 59, 53, 117] = some a ∧
    lookupK [([27, 91, 57, 55, 59, 53, 117], a), ([1], a)] [1] = some a := by
  refine ⟨?_, rfl, rfl⟩
  simp only [formatKeymap, formatKeymapAux, h]
  rfl

/-- C7 witness: `ctrl-a` bound to the action-spec `exit`. -/
theorem ctrl_a_two_entries_witness :
    formatKeymap [(bytes ("ctrl-a"), bytes ("exit"))] =
      Except.ok [([27, 91, 57, 55, 59, 53, 117], { type := actionTypeExit, arg := [] }),
                 ([1], { type := actionTypeExit, arg := [] })] ∧
    lookupK [([27, 91, 57, 55, 59, 53, 117], { type := actionTypeExit, arg := [] }),
             ([1], { type := actionTypeExit, arg := [] })]
      [27, 91, 57, 55, 59, 53, 117] = some { type := actionTypeExit, arg := [] } ∧
    lookupK [([27, 91, 57, 55, 59, 53, 117], { type := actionTypeExit, arg := [] }),
             ([1], { type := actionTypeExit, arg := [] })] [1] =
      some { type := actionTypeExit, arg := [] } :=
  ctrl_a_two_entries (bytes ("exit")) { type := actionTypeExit, arg := [] } rfl

/-- C3 counterexample: with no hold mode, when the child exits with a
failure the event loop still returns 0 (the error is only logged), and
the process exit status is therefore 0, not the child's failure status. -/
theorem childExit_failure_exits_zero :
    loopStep false [] false 0 (Event.childExit (some (bytes ("exit status 1")))) =
      { childExited := true, returnCode := some 0, loggedError := true } ∧
    mainExitStatus 0 = 0 :=
  ⟨rfl, rfl⟩

/-- C3 amended: when the child exits on its own without hold mode, the
event loop returns 0 regardless of whether the child failed; a failure is
logged but not mirrored in the supervisor's exit status. -/
theorem childExit_no_hold_returns_zero (err : Option GoStr) (stdinName : GoStr)
    (timeouts : Nat) :
    loopStep false stdinName false timeouts (Event.childExit err) =
      { childExited := true, returnCode := some 0, loggedError := err.isSome } ∧
    mainExitStatus 0 = 0 := by
  exact ⟨rfl, rfl⟩

/-- C5 counterexample: the binding `q: foo`, whose action-spec matches
none of `exit` / `become(...)` / `execute(...)`, does not fail keymap
compilation; it produces a mapping binding `q` to the zero-valued
action. -/
theorem unknown_spec_compiles_ok :
    formatKeymap [(bytes ("q"), bytes ("foo"))] =
      Except.ok [([113], zeroAction)] := rfl

/-- Helper: every entry of `insertK m k a` carries value `a` when every
entry of `m` does. -/
theorem insertK_snd (m : Keymap) (k : GoStr) (a : Action)
    (h : ∀ p ∈ m, p.2 = a) : ∀ p ∈ insertK m k a, p.2 = a := by
  induction m with
  | nil =>
    intro p hp
    simp only [insertK, List.mem_singleton] at hp
    rw [hp]
  | cons q rest ih =>
    obtain ⟨k', a'⟩ := q
    intro p hp
    rw [insertK] at hp
    by_cases hq : k' = k
    · rw [if_pos hq] at hp
      rcases List.mem_cons.mp hp with h1 | h2
      · rw [h1]
      · exact h p (List.mem_cons_of_mem _ h2)
    · rw [if_neg hq] at hp
      rcases List.mem_cons.mp hp with h1 | h2
      · exact h p (h1 ▸ List.mem_cons_self _ _)
      · exact ih (fun q hq' => h q (List.mem_cons_of_mem _ hq')) p h2

/-- Helper: a successful lookup returns the value of some entry. -/
theorem lookupK_mem (m : Keymap) (seq : GoStr) (a : Action)
    (h : lookupK m seq = some a) : ∃ p ∈ m, p.2 = a := by
  induction m with
  | nil => simp [lookupK] at h
  | cons q rest ih =>
    obtain ⟨k', a'⟩ := q
    rw [lookupK] at h
    by_cases hq : k' = seq
    · rw [if_pos hq] at h
      injection h with h'
      exact ⟨(k', a'), List.mem_cons_self _ _, h'⟩
    · rw [if_neg hq] at h
      obtain ⟨p, hp, hpa⟩ := ih h
      exact ⟨p, List.mem_cons_of_mem _ hp, hpa⟩

/-- Helper: for an action-spec matching none of the three recognised
forms, the spec parses to the zero action, compiling the binding reduces
to the key-literal switch applied with the zero action, every registered
entry carries the zero action, the only possible failure is the
`unknown key` panic, and failure happens exactly when the key literal is
none of the four recognised shapes. -/
theorem compile_unknown_spec (k v : GoStr)
    (h1 : v ≠ bytes ("exit"))
    (h2 : ¬ (bytes ("become(")).isPrefixOf v)
    (h3 : ¬ (bytes ("execute(")).isPrefixOf v) :
    parseActionSpec v = Except.ok zeroAction ∧
    formatKeymap [(k, v)] = compileKeyLiteral [] k zeroAction ∧
    (∀ m, compileKeyLiteral [] k zeroAction = Except.ok m →
      ∀ p ∈ m, p.2 = zeroAction) ∧
    (∀ e, compileKeyLiteral [] k zeroAction = Except.error e →
      e = bytes ("unknown key: ") ++ k) ∧
    ((∃ e, compileKeyLiteral [] k zeroAction = Except.error e) ↔
      ¬ (k.length = 1 ∨ ((bytes ("ctrl-")).isPrefixOf k ∧ (k.drop 5).length = 1)
        ∨ k = bytes ("enter") ∨ k = bytes ("tab"))) := by
  have hp : parseActionSpec v = Except.ok zeroAction := by
    simp [parseActionSpec, h1, h2, h3]
  refine ⟨hp, ?_, ?_, ?_, ?_⟩
  · simp only [formatKeymap, formatKeymapAux, hp]
    cases compileKeyLiteral [] k zeroAction with
    | ok m' => rfl
    | error e => rfl
  · intro m hm p hpm
    rw [compileKeyLiteral] at hm
    by_cases hA : k.length = 1
    · rw [if_pos hA] at hm
      injection hm with hm'
      subst hm'
      exact insertK_snd [] k zeroAction (by simp) p hpm
    · rw [if_neg hA] at hm
      by_cases hB : (bytes ("ctrl-")).isPrefixOf k ∧ (k.drop 5).length = 1
      · rw [if_pos hB] at hm
        injection hm with hm'
        subst hm'
        split at hpm
        · exact insertK_snd _ _ _ (insertK_snd [] _ _ (by simp)) p hpm
        · exact insertK_snd [] _ _ (by simp) p hpm
      · rw [if_neg hB] at hm
        by_cases hC : k = bytes ("enter")
        · rw [if_pos hC] at hm
          injection hm with hm'
          subst hm'
          exact insertK_snd [] _ _ (by simp) p hpm
        · rw [if_neg hC] at hm
          by_cases hD : k = bytes ("tab")
          · rw [if_pos hD] at hm
            injection hm with hm'
            subst hm'
            exact insertK_snd [] _ _ (by simp) p hpm
          · rw [if_neg hD] at hm
            exact Except.noConfusion hm
  · intro e he
    rw [compileKeyLiteral] at he
    by_cases hA : k.length = 1
    · rw [if_pos hA] at he
      exact Except.noConfusion he
    · rw [if_neg hA] at he
      by_cases hB : (bytes ("ctrl-")).isPrefixOf k ∧ (k.drop 5).length = 1
      · rw [if_pos hB] at he
        exact Except.noConfusion he
      · rw [if_neg hB] at he
        by_cases hC : k = bytes ("enter")
        · rw [if_pos hC] at he
          exact Except.noConfusion he
        · rw [if_neg hC] at he
          by_cases hD : k = bytes ("tab")
          · rw [if_pos hD] at he
            exact Except.noConfusion he
          · rw [if_neg hD] at he
            injection he with he'
            exact he'.symm
  · constructor
    · rintro ⟨e, he⟩
      rw [compileKeyLiteral] at he
      intro hdisj
      by_cases hA : k.length = 1
      · rw [if_pos hA] at he
        exact Except.noConfusion he
      · rw [if_neg hA] at he
        by_cases hB : (bytes ("ctrl-")).isPrefixOf k ∧ (k.drop 5).length = 1
        · rw [if_pos hB] at he
          exact Except.noConfusion he
        · rw [if_neg hB] at he
          by_cases hC : k = bytes ("enter")
          · rw [if_pos hC] at he
            exact Except.noConfusion he
          · rw [if_neg hC] at he
            by_cases hD : k = bytes ("tab")
            · rw [if_pos hD] at he
              exact Except.noConfusion he
            · rcases hdisj with h | h | h | h
              · exact hA h
              · exact hB h
              · exact hC h
              · exact hD h
    · intro hnot
      have hA := fun h => hnot (Or.inl h)
      have hB := fun h => hnot (Or.inr (Or.inl h))
      have hC := fun h => hnot (Or.inr (Or.inr (Or.inl h)))
      have hD := fun h => hnot (Or.inr (Or.inr (Or.inr h)))
      refine ⟨bytes ("unknown key: ") ++ k, ?_⟩
      rw [compileKeyLiteral, if_neg hA, if_neg hB, if_neg hC, if_neg hD]

/-- C5 amended: for every keymap binding whose action-spec is none of the
three recognised forms, compilation does not fail on the action-spec: the
spec parses to the Go zero-valued action, the binding compiles exactly as
the key-literal switch applied with that zero action, every byte-sequence
entry this registers maps to the zero action, and the only possible
failure is the fatal `unknown key` error, which happens exactly when the
key literal is none of the four recognised shapes. -/
theorem unknown_spec_zero_action (k v : GoStr)
    (h1 : v ≠ bytes ("exit"))
    (h2 : ¬ (bytes ("become(")).isPrefixOf v)
    (h3 : ¬ (bytes ("execute(")).isPrefixOf v) :
    parseActionSpec v = Except.ok zeroAction ∧
    formatKeymap [(k, v)] = compileKeyLiteral [] k zeroAction ∧
    (∀ m, compileKeyLiteral [] k zeroAction = Except.ok m →
      ∀ p ∈ m, p.2 = zeroAction) ∧
    (∀ e, compileKeyLiteral [] k zeroAction = Except.error e →
      e = bytes ("unknown key: ") ++ k) ∧
    ((∃ e, compileKeyLiteral [] k zeroAction = Except.error e) ↔
      ¬ (k.length = 1 ∨ ((bytes ("ctrl-")).isPrefixOf k ∧ (k.drop 5).length = 1)
        ∨ k = bytes ("enter") ∨ k = bytes ("tab"))) :=
  compile_unknown_spec k v h1 h2 h3

/-- C5 amended witness: the binding `ctrl-e: foo`. -/
theorem unknown_spec_zero_action_witness :
    parseActionSpec (bytes ("foo")) = Except.ok zeroAction ∧
    formatKeymap [(bytes ("ctrl-e"), bytes ("foo"))] =
      compileKeyLiteral [] (bytes ("ctrl-e")) zeroAction ∧
    (∀ m, compileKeyLiteral [] (bytes ("ctrl-e")) zeroAction = Except.ok m →
      ∀ p ∈ m, p.2 = zeroAction) ∧
    (∀ e, compileKeyLiteral [] (bytes ("ctrl-e")) zeroAction = Except.error e →
      e = bytes ("unknown key: ") ++ bytes ("ctrl-e")) ∧
    ((∃ e, compileKeyLiteral [] (bytes ("ctrl-e")) zeroAction = Except.error e) ↔
      ¬ ((bytes ("ctrl-e")).length = 1 ∨
        ((bytes ("ctrl-")).isPrefixOf (bytes ("ctrl-e")) ∧
          ((bytes ("ctrl-e")).drop 5).length = 1)
        ∨ bytes ("ctrl-e") = bytes ("enter") ∨ bytes ("ctrl-e") = bytes ("tab"))) :=
  unknown_spec_zero_action (bytes ("ctrl-e")) (bytes ("foo"))
    (by decide) (by decide) (by decide)

/-- C9: a binding of any recognised key-literal shape (single byte,
`ctrl-` plus one byte, `enter`, `tab`) with an unrecognised action-spec
compiles successfully to a map in which pressing any registered byte
sequence while the child runs enqueues the zero-valued action and
forwards no bytes to the PTY, and dispatching the zero action in the
event loop matches no case of the `switch`: no stop, no return, no
process replacement, no side command. -/
theorem unknown_spec_key_inert (k v : GoStr)
    (h1 : v ≠ bytes ("exit"))
    (h2 : ¬ (bytes ("become(")).isPrefixOf v)
    (h3 : ¬ (bytes ("execute(")).isPrefixOf v)
    (hshape : k.length = 1 ∨ ((bytes ("ctrl-")).isPrefixOf k ∧ (k.drop 5).length = 1)
      ∨ k = bytes ("enter") ∨ k = bytes ("tab"))
    (hold : Bool) (stdinName : GoStr) (timeouts : Nat) :
    ∃ m, formatKeymap [(k, v)] = Except.ok m ∧
      (∀ seq a, lookupK m seq = some a →
        a = zeroAction ∧
        readerStep m false false seq = ⟨false, [zeroAction], []⟩) ∧
      loopStep hold stdinName false timeouts (Event.action zeroAction) =
        { childExited := false } := by
  obtain ⟨hp, hred, hvals, herr, hiff⟩ := compile_unknown_spec k v h1 h2 h3
  cases hc : compileKeyLiteral [] k zeroAction with
  | error e => exact absurd hshape (hiff.mp ⟨e, hc⟩)
  | ok m =>
    refine ⟨m, by rw [hred, hc], ?_, rfl⟩
    intro seq a hseq
    obtain ⟨p, hpm, hpa⟩ := lookupK_mem m seq a hseq
    have ha : a = zeroAction := by
      rw [← hpa]
      exact hvals m hc p hpm
    subst ha
    exact ⟨rfl, by simp [readerStep, hseq]⟩

/-- C9 witness: the binding `ctrl-e: foo`, child running. -/
theorem unknown_spec_key_inert_witness :
    ∃ m, formatKeymap [(bytes ("ctrl-e"), bytes ("foo"))] = Except.ok m ∧
      (∀ seq a, lookupK m seq = some a →
        a = zeroAction ∧
        readerStep m false false seq = ⟨false, [zeroAction], []⟩) ∧
      loopStep false [] false 0 (Event.action zeroAction) =
        { childExited := false } :=
  unknown_spec_key_inert (bytes ("ctrl-e")) (bytes ("foo"))
    (by decide) (by decide) (by decide)
    (Or.inr (Or.inl (by decide))) false [] 0

/-- C4 counterexample: on the successful Become path `syscall.Exec`
replaces the process image and the deferred `term.Restore` never runs, so
the terminal is left in raw mode on that exit path. -/
theorem become_exec_skips_restore :
    TermEvent.restored ∉ terminalEvents (PostRawExit.becomeExec true) := by
  decide

/-- C4 amended: the previous terminal mode is restored on every exit path
after raw mode entry except the successful Become process-replacement
path, where the image is replaced without running the deferred
restoration. -/
theorem restore_on_non_become_paths (p : PostRawExit)
    (h : p ≠ PostRawExit.becomeExec true) :
    TermEvent.restored ∈ terminalEvents p := by
  cases p with
  | normalReturn => simp [terminalEvents]
  | panicAbort => simp [terminalEvents]
  | becomeExec b =>
    cases b with
    | false => simp [terminalEvents]
    | true => exact absurd rfl h

/-- C4 amended witness: the normal-return path restores the terminal. -/
theorem restore_on_non_become_paths_witness :
    TermEvent.restored ∈ terminalEvents PostRawExit.normalReturn :=
  restore_on_non_become_paths PostRawExit.normalReturn (by decide)

/-- Helper: the two variants' action-spec parsers are the same function. -/
theorem part000_parseActionSpec_eq :
    Part000.parseActionSpec = parseActionSpec := rfl

/-- Helper: the two variants' key-literal compilers are the same
function. -/
theorem part000_compileKeyLiteral_eq :
    Part000.compileKeyLiteral = compileKeyLiteral := rfl

/-- Helper: the two variants' compilation loops agree on every entry list
and accumulator. -/
theorem part000_formatKeymapAux_eq (km : List (GoStr × GoStr)) (m : Keymap) :
    Part000.formatKeymapAux km m = formatKeymapAux km m := by
  induction km generalizing m with
  | nil => rfl
  | cons kv rest ih =>
    obtain ⟨k, v⟩ := kv
    rw [Part000.formatKeymapAux, formatKeymapAux,
      part000_parseActionSpec_eq, part000_compileKeyLiteral_eq]
    cases parseActionSpec v with
    | error e => rfl
    | ok action =>
      dsimp only
      cases compileKeyLiteral m k action with
      | ok m' => exact ih m'
      | error e => rfl

/-- C10: the keymap compilers of src/main.go and src/unnamed/part_000 are
equivalent: on every input list of bindings they either fail with the
same unknown-key error or return the same byte-sequence-to-action
mapping. -/
theorem formatKeymap_variants_equal (km : List (GoStr × GoStr)) :
    Part000.formatKeymap km = formatKeymap km :=
  part000_formatKeymapAux_eq km []

end Keywrap
